import Mathlib

/-!
# Verification of `kooDB` (`src/flexible_database.rs`)

Shallow embedding of the schema-driven persistence layer in
`src/flexible_database.rs` (the sibling `flexible_databse.rs` is an abandoned
draft that is not valid Rust and is ignored).  Pure data is translated
directly; the `rusqlite`/SQLite storage engine behind `self.conn` is modelled
at the level of the statement shapes this code actually emits
(`CREATE TABLE IF NOT EXISTS`, single-row `INSERT`, `UPDATE ... WHERE id = ?`,
`DELETE FROM ... WHERE id = ?`, `SELECT ... WHERE id = ?`), following SQLite's
documented semantics for those shapes.  `HashMap`s are modelled as association
lists; every operation of the Rust code only observes a `HashMap` through
`get`/`contains_key`/iteration, which correspond to `lookupA` and list
traversal below.

Modelling notes for the storage engine (external collaborator, not repository
code):
* SQLite `REAL` values are IEEE-754 doubles; the repository never inspects
  them, it only passes them through, so they are modelled as opaque 64-bit
  patterns (`Value.Real (bits : Nat)`).  Type-affinity conversions that would
  require IEEE-754 arithmetic (storing an `Integer` in a `REAL` column, or a
  `Real` in a `TEXT`/`INTEGER` column) are left as pass-through, and reading a
  non-`Real` stored value through `rusqlite`'s `f64` decoder is mapped to an
  error; no theorem below exercises those combinations.
* SQLite identifiers are modelled by a conservative grammar
  (alphanumeric/underscore, not starting with a digit); the code interpolates
  raw caller-supplied names into statement text, and a name outside this
  grammar makes the statement fail to parse.
* SQLite's text-to-numeric affinity conversion is modelled only for plain
  signed decimal integers (`parseI64`); the engine additionally converts
  whitespace-padded numerics and lossless real literals such as `'500.0'`.
  Theorems that exercise a text value bound to a numeric column therefore
  restrict it to `nonNumericText` — text containing a character no numeric
  literal can contain — where engine and model agree the text is stored
  unchanged.
-/

/-- Model of `rusqlite::types::Value` (the tagged union carried in `Model.data` and in
all write payloads).  `Integer` carries an `i64`, modelled as `Int`; `Real`
carries an opaque `f64` bit pattern. -/
inductive Value where
  | Null : Value
  | Integer : Int → Value
  | Real : Nat → Value
  | Text : String → Value
  | Blob : List Nat → Value
deriving Repr, DecidableEq

/-- Enum `FieldType` from `flexible_database.rs` lines 18-24. -/
inductive FieldType where
  | Text : FieldType
  | Integer : FieldType
  | Real : FieldType
  | Boolean : FieldType
deriving Repr, DecidableEq

/-- Struct `Schema` (lines 12-16): a table name plus field-name-to-type mapping. -/
structure Schema where
  name : String
  fields : List (String × FieldType)
deriving Repr, DecidableEq

/-- Struct `Model` (lines 5-9): optional id plus field-name-to-value mapping. -/
structure Model where
  id : Option Int
  data : List (String × Value)
deriving Repr, DecidableEq

/-- One stored row of a table: the SQLite rowid (the `id INTEGER PRIMARY KEY`
column) plus the stored value of every declared column. -/
structure Row where
  id : Int
  cells : List (String × Value)
deriving Repr, DecidableEq

/-- One SQLite table: its columns (with the declared type, which fixes the
column's affinity) and its rows. -/
structure Table where
  cols : List (String × FieldType)
  rows : List Row
deriving Repr, DecidableEq

/-- The state of a `FlexibleDatabase` (lines 26-29): the schema registry
`self.schemas` plus the contents of the SQLite database behind `self.conn`. -/
structure DbState where
  schemas : List (String × Schema)
  tables : List (String × Table)
deriving Repr, DecidableEq

/-- The `rusqlite::Error` values this code can surface.
`executeReturnedResults` is `rusqlite::Error::ExecuteReturnedResults`, the
single error value the code returns for BOTH unknown-schema and unknown-field
validation failures (lines 68, 77, 100, 136, 174, 182, 209).
`sqliteFailure` models `rusqlite::Error::SqliteFailure` (engine-level parse,
constraint and missing-relation failures); `fromSqlConversionFailure` models
the out-of-range error of `rusqlite`'s checked `i32` column decoder;
`invalidColumnType` models `rusqlite::Error::InvalidColumnType`. -/
inductive DbError where
  | executeReturnedResults : DbError
  | sqliteFailure : String → DbError
  | fromSqlConversionFailure : DbError
  | invalidColumnType : DbError
deriving Repr, DecidableEq

/-- Association-list lookup: `HashMap::get` / `contains_key`. -/
def lookupA {α : Type} (l : List (String × α)) (k : String) : Option α :=
  match l with
  | [] => none
  | (k', v) :: t => if k' = k then some v else lookupA t k

/-- Association-list insert-or-overwrite: `HashMap::insert`.  `lookupA`
returns the first match, so consing the new binding shadows (= overwrites)
any previous binding of the same key; the code observes its maps only
through `get`/`contains_key`/iteration-after-building, never through entry
counts, so this is observationally the `HashMap` update. -/
def insertA {α : Type} (l : List (String × α)) (k : String) (v : α) :
    List (String × α) :=
  (k, v) :: l

/-- In-place overwrite of an existing key, preserving entry order (the effect
of `UPDATE ... SET k = v` on one stored row: it never adds a column). -/
def setA {α : Type} (l : List (String × α)) (k : String) (v : α) :
    List (String × α) :=
  l.map (fun p => if p.1 = k then (k, v) else p)

/-- Rust's wrapping `as i32` cast (line 93: `last_insert_rowid() as i32`). -/
def asI32 (i : Int) : Int :=
  (i + 2147483648) % 4294967296 - 2147483648

/-- Whether an `i64` value fits in `i32` (the range accepted by `rusqlite`'s
checked `i32` column decoder, used at lines 113, 121 and 151, 159). -/
def fitsI32 (i : Int) : Bool :=
  decide (-2147483648 ≤ i ∧ i < 2147483648)

/-- All-digits decimal parse, `none` on the empty list or a non-digit. -/
def digitsToNat (cs : List Char) : Option Nat :=
  if cs = [] then none
  else if cs.all Char.isDigit then
    some (cs.foldl (fun a c => a * 10 + (c.toNat - 48)) 0)
  else none

/-- SQLite's conversion of TEXT to an integer under INTEGER affinity,
restricted to plain optionally-signed decimal integers that fit in `i64`.
CAUTION: the real engine converts more text than this — whitespace-padded
numerics and real literals that are lossless integers (SQLite's own
datatypes example stores the text `'500.0'` as the integer 500) — and on
those extra forms `parseI64` returns `none` although the engine stores a
number.  Every theorem that exercises this text-to-numeric path therefore
restricts its inputs to `nonNumericText` strings (below), on which the
engine and this model provably agree: the text is kept as text. -/
def parseI64 (s : String) : Option Int :=
  let core : Option Int :=
    match s.data with
    | '-' :: rest => (digitsToNat rest).map (fun n => -(n : Int))
    | '+' :: rest => (digitsToNat rest).map (fun n => (n : Int))
    | cs => (digitsToNat cs).map (fun n => (n : Int))
  core.bind (fun i =>
    if -9223372036854775808 ≤ i ∧ i ≤ 9223372036854775807 then some i
    else none)

/-- SQLite type affinity applied when a bound parameter value is stored into
a column of the given declared type (`Boolean` columns are declared
`INTEGER`, line 52).  A value whose storage class already matches the
column's affinity is stored unchanged; an integer bound to a TEXT column is
stored as its decimal text; a text bound to an INTEGER column is converted
only if it is a well-formed integer, otherwise stored as text.  Conversions
involving `REAL` payloads are left as pass-through (see the header note),
and the text-to-integer branch narrows the engine's conversion to plain
signed decimals (see `parseI64`): theorems exercise that branch only on
`nonNumericText` inputs, where the narrowing is exact. -/
def applyAffinity : FieldType → Value → Value
  | FieldType.Text, Value.Integer i => Value.Text (toString i)
  | FieldType.Integer, Value.Text s =>
      match parseI64 s with
      | some i => Value.Integer i
      | none => Value.Text s
  | FieldType.Boolean, Value.Text s =>
      match parseI64 s with
      | some i => Value.Integer i
      | none => Value.Text s
  | _, v => v

/-- Whether a `Value`'s tag matches a declared `FieldType` (the spec's
type-consistency relation; a `Boolean` field carries a boolean-as-integer
`Value.Integer`). -/
def tagMatches : FieldType → Value → Bool
  | FieldType.Text, Value.Text _ => true
  | FieldType.Integer, Value.Integer _ => true
  | FieldType.Real, Value.Real _ => true
  | FieldType.Boolean, Value.Integer _ => true
  | _, _ => false

/-- Whether a stored value is SQL NULL (for the NOT NULL column constraint
emitted at line 56). -/
def isNullV : Value → Bool
  | Value.Null => true
  | _ => false

/-- The conservative identifier grammar under which an interpolated name
parses inside the generated statement text. -/
def validIdent (s : String) : Bool :=
  s ≠ "" && s.data.all (fun c => c.isAlphanum || c = '_')
    && !(s.data.headD 'a').isDigit

/-- The rowid SQLite assigns to a new row of a table whose rowids are
nonnegative: one more than the largest existing rowid, or 1 for an empty
table. -/
def freshRowId (rows : List Row) : Int :=
  rows.foldl (fun a r => max a r.id) 0 + 1

/-- The `INSERT` statement text built at lines 85-90. -/
def insertSql (name : String) (fields : List String) : String :=
  "INSERT INTO " ++ name ++ " (" ++ String.intercalate ", " fields ++
    ") VALUES (" ++ String.intercalate ", " (fields.map (fun _ => "?")) ++ ")"

/-- Engine execution of the `CREATE TABLE IF NOT EXISTS` statement built at
lines 45-59: a parse failure if an interpolated name is not a valid
identifier; silently keeps an existing table of that name (`IF NOT EXISTS`);
otherwise creates an empty table whose columns are the declared fields, which
must not collide with the built-in `id` column or each other. -/
def execCreateTable (ts : List (String × Table)) (schema : Schema) :
    Except DbError (List (String × Table)) :=
  if ¬ (validIdent schema.name ∧ schema.fields.all (fun p => validIdent p.1)) then
    .error (.sqliteFailure "syntax error in CREATE TABLE")
  else
    match lookupA ts schema.name with
    | some _ => .ok ts
    | none =>
      if schema.fields.any (fun p => p.1 = "id") ∨
          ¬ (schema.fields.map Prod.fst).Nodup then
        .error (.sqliteFailure "duplicate column name")
      else .ok (insertA ts schema.name { cols := schema.fields, rows := [] })

/-- Operation `define_schema` (lines 41-63): the registry insert at line 42 happens
FIRST, then the `CREATE TABLE IF NOT EXISTS` statement is executed; a storage
failure therefore still leaves the schema registered. -/
def define_schema (st : DbState) (schema : Schema) :
    Except DbError Unit × DbState :=
  let schemas' := insertA st.schemas schema.name schema
  match execCreateTable st.tables schema with
  | .error e => (.error e, { schemas := schemas', tables := st.tables })
  | .ok ts => (.ok (), { schemas := schemas', tables := ts })

/-- The validation loop shared by `create_model` (lines 74-83) and
`update_model` (lines 179-187): walk the payload in order; on the first field
name not declared in the schema return `Err(ExecuteReturnedResults)` before
any statement is executed; otherwise collect the field names and values. -/
def checkFields (schema : Schema) (data : List (String × Value)) :
    Except DbError (List String × List Value) :=
  match data with
  | [] => .ok ([], [])
  | (f, v) :: t =>
    if (lookupA schema.fields f).isNone then .error .executeReturnedResults
    else
      match checkFields schema t with
      | .error e => .error e
      | .ok (fs, vs) => .ok (f :: fs, v :: vs)

/-- The stored form of a bound parameter value destined for column `k`:
converted by the column's affinity (the no-column fallback is unreachable
behind the column-existence checks). -/
def storeVal (cols : List (String × FieldType)) (k : String) (v : Value) :
    Value :=
  match lookupA cols k with
  | some ft => applyAffinity ft v
  | none => v

/-- Conversion of one bound parameter into the stored cell of its column. -/
def storeCell (cols : List (String × FieldType)) (p : String × Value) :
    String × Value :=
  (p.1, storeVal cols p.1 p.2)

/-- Engine execution of the single-row `INSERT` built by `create_model`: an
empty column list is a parse error (SQLite does not accept
`INSERT INTO t () VALUES ()`); the table and every named column must exist;
every stored value is converted by the column's affinity; the NOT NULL
constraint on every declared column rejects a missing or NULL value; on
success the new row is appended and its assigned rowid returned. -/
def execInsert (ts : List (String × Table)) (name : String)
    (fields : List String) (values : List Value) :
    Except DbError (List (String × Table) × Int) :=
  if fields.isEmpty then .error (.sqliteFailure "syntax error in INSERT")
  else
    match lookupA ts name with
    | none => .error (.sqliteFailure "no such table")
    | some t =>
      if ¬ fields.all (fun f => (lookupA t.cols f).isSome) then
        .error (.sqliteFailure "no such column")
      else
        let cells := (List.zip fields values).map (storeCell t.cols)
        if t.cols.any (fun p =>
            match lookupA cells p.1 with
            | none => true
            | some w => isNullV w) then
          .error (.sqliteFailure "NOT NULL constraint failed")
        else
          let rid := freshRowId t.rows
          .ok (insertA ts name
            { t with rows := t.rows ++ [{ id := rid, cells := cells }] }, rid)

/-- Operation `create_model` (lines 66-95): schema lookup (67-68, `Err` on unknown
schema), payload validation (74-83), statement construction (85-90) and
execution (92), then `last_insert_rowid() as i32` (93). -/
def create_model (st : DbState) (schemaName : String)
    (data : List (String × Value)) : Except DbError Int × DbState :=
  match lookupA st.schemas schemaName with
  | none => (.error .executeReturnedResults, st)
  | some schema =>
    match checkFields schema data with
    | .error e => (.error e, st)
    | .ok (fields, values) =>
      let _sql := insertSql schemaName fields
      match execInsert st.tables schemaName fields values with
      | .error e => (.error e, st)
      | .ok (ts, rid) => (.ok (asI32 rid), { st with tables := ts })

/-- The per-column read of lines 117-122 (and 155-160): `rusqlite` decodes a
TEXT column value through `String`, an INTEGER column through `i64`, a REAL
column through `f64`, and a Boolean column through the checked `i32` decoder
followed by the normalization `if x == 0 { 0 } else { 1 }` (line 121).  A
stored value of the wrong storage class yields `InvalidColumnType`; a stored
integer outside `i32` on the Boolean path yields the out-of-range conversion
failure.  (A stored `Integer` read through `f64` would really be coerced to
floating point; the integer-level model maps it to `invalidColumnType` and no
theorem exercises it, see the header note.) -/
def readCell (ft : FieldType) (stored : Value) : Except DbError Value :=
  match ft, stored with
  | FieldType.Text, Value.Text s => .ok (Value.Text s)
  | FieldType.Integer, Value.Integer i => .ok (Value.Integer i)
  | FieldType.Real, Value.Real b => .ok (Value.Real b)
  | FieldType.Boolean, Value.Integer n =>
      if fitsI32 n then .ok (Value.Integer (if n = 0 then 0 else 1))
      else .error .fromSqlConversionFailure
  | _, _ => .error .invalidColumnType

/-- The column-reading loop of lines 115-125 (and 153-163): read each schema
field of one row in schema order. -/
def readFields (fields : List (String × FieldType))
    (cells : List (String × Value)) :
    Except DbError (List (String × Value)) :=
  match fields with
  | [] => .ok []
  | (f, ft) :: t =>
    match lookupA cells f with
    | none => .error (.sqliteFailure "no such column")
    | some stored =>
      match readCell ft stored with
      | .error e => .error e
      | .ok v =>
        match readFields t cells with
        | .error e => .error e
        | .ok rest => .ok ((f, v) :: rest)

/-- Operation `get_model` (lines 98-131): schema lookup (99-100), then the `SELECT`
built at 102-106 is prepared (failing if the table or a selected column does
not exist) and run with `WHERE id = ?`; a missing row returns `Ok(None)`
(line 129); a found row is decoded, its `id` through the checked `i32`
decoder (line 113). -/
def get_model (st : DbState) (schemaName : String) (id : Int) :
    Except DbError (Option Model) :=
  match lookupA st.schemas schemaName with
  | none => .error .executeReturnedResults
  | some schema =>
    match lookupA st.tables schemaName with
    | none => .error (.sqliteFailure "no such table")
    | some t =>
      if ¬ schema.fields.all (fun p => (lookupA t.cols p.1).isSome) then
        .error (.sqliteFailure "no such column")
      else
        match t.rows.find? (fun r => r.id = id) with
        | none => .ok none
        | some row =>
          if ¬ fitsI32 row.id then .error .fromSqlConversionFailure
          else
            match readFields schema.fields row.cells with
            | .error e => .error e
            | .ok data => .ok (some { id := some row.id, data := data })

/-- The row loop of `get_all_models` (lines 149-166): decode every row in
storage order, `id` through the checked `i32` decoder (line 151). -/
def readAllRows (fields : List (String × FieldType)) (rows : List Row) :
    Except DbError (List Model) :=
  match rows with
  | [] => .ok []
  | r :: rs =>
    if ¬ fitsI32 r.id then .error .fromSqlConversionFailure
    else
      match readFields fields r.cells with
      | .error e => .error e
      | .ok data =>
        match readAllRows fields rs with
        | .error e => .error e
        | .ok ms => .ok ({ id := some r.id, data := data } :: ms)

/-- Operation `get_all_models` (lines 134-170): same validation and decoding as
`get_model`, over every row of the table. -/
def get_all_models (st : DbState) (schemaName : String) :
    Except DbError (List Model) :=
  match lookupA st.schemas schemaName with
  | none => .error .executeReturnedResults
  | some schema =>
    match lookupA st.tables schemaName with
    | none => .error (.sqliteFailure "no such table")
    | some t =>
      if ¬ schema.fields.all (fun p => (lookupA t.cols p.1).isSome) then
        .error (.sqliteFailure "no such column")
      else readAllRows schema.fields t.rows

/-- Apply the `SET f1 = ?, f2 = ?, ...` assignments of an `UPDATE` to one
row's cells, converting each assigned value by its column's affinity. -/
def applySets (cells : List (String × Value)) (cols : List (String × FieldType))
    (data : List (String × Value)) : List (String × Value) :=
  match data with
  | [] => cells
  | (f, v) :: t => applySets (setA cells f (storeVal cols f v)) cols t

/-- Engine execution of the `UPDATE ... WHERE id = ?` built by
`update_model`: the table and every assigned column must exist; if a matched
row would receive a NULL value the NOT NULL constraint aborts the whole
statement; otherwise every matched row's assigned cells are overwritten and
the number of matched rows is returned (`sqlite3_changes` counts every row an
`UPDATE` processes, including those whose new values equal the old). -/
def execUpdate (ts : List (String × Table)) (name : String)
    (fields : List String) (values : List Value) (id : Int) :
    Except DbError (List (String × Table) × Nat) :=
  match lookupA ts name with
  | none => .error (.sqliteFailure "no such table")
  | some t =>
    if ¬ fields.all (fun f => (lookupA t.cols f).isSome) then
      .error (.sqliteFailure "no such column")
    else
      let affected := t.rows.countP (fun r => r.id = id)
      if 0 < affected ∧ (List.zip fields values).any (fun p =>
          isNullV (storeVal t.cols p.1 p.2)) then
        .error (.sqliteFailure "NOT NULL constraint failed")
      else
        let rows' := t.rows.map (fun r =>
          if r.id = id then
            { r with cells := applySets r.cells t.cols (List.zip fields values) }
          else r)
        .ok (insertA ts name { t with rows := rows' }, affected)

/-- Operation `update_model` (lines 172-204): schema lookup (173-174), payload
validation (179-187), the early `Ok(false)` return for an empty assignment
list (192-194) BEFORE any statement is built or executed, then the `UPDATE`
(196-202) and `rows_affected > 0` (203).  (Line 190 pushes the id parameter
before the empty check, which has no observable effect.) -/
def update_model (st : DbState) (schemaName : String) (id : Int)
    (data : List (String × Value)) : Except DbError Bool × DbState :=
  match lookupA st.schemas schemaName with
  | none => (.error .executeReturnedResults, st)
  | some schema =>
    match checkFields schema data with
    | .error e => (.error e, st)
    | .ok (fields, values) =>
      if fields.isEmpty then (.ok false, st)
      else
        match execUpdate st.tables schemaName fields values id with
        | .error e => (.error e, st)
        | .ok (ts, n) => (.ok (decide (0 < n)), { st with tables := ts })

/-- Operation `delete_model` (lines 207-214): schema lookup (208-209), then
`DELETE FROM ... WHERE id = ?` and `rows_affected > 0`. -/
def delete_model (st : DbState) (schemaName : String) (id : Int) :
    Except DbError Bool × DbState :=
  match lookupA st.schemas schemaName with
  | none => (.error .executeReturnedResults, st)
  | some _ =>
    match lookupA st.tables schemaName with
    | none => (.error (.sqliteFailure "no such table"), st)
    | some t =>
      let n := t.rows.countP (fun r => r.id = id)
      let t' := { t with rows := t.rows.filter (fun r => r.id ≠ id) }
      (.ok (decide (0 < n)), { st with tables := insertA st.tables schemaName t' })

/-- The Boolean read-normalization of lines 121 and 159, lifted to a
per-field function for stating the round-trip property: a `Boolean` field's
integer is collapsed to 0 or 1, every other field is returned unchanged. -/
def boolNorm : FieldType → Value → Value
  | FieldType.Boolean, Value.Integer n => Value.Integer (if n = 0 then 0 else 1)
  | _, v => v

/-! ## Concrete states used by the closed theorems and witnesses -/

/-- A representative schema exercising all four field types. -/
def usersSchema : Schema :=
  { name := "users",
    fields := [("name", FieldType.Text), ("age", FieldType.Integer),
               ("score", FieldType.Real), ("active", FieldType.Boolean)] }

/-- The freshly-opened database (`FlexibleDatabase::new`): empty registry,
empty storage. -/
def st0 : DbState := { schemas := [], tables := [] }

/-- State `st0` after `define_schema(usersSchema)`. -/
def stU : DbState := (define_schema st0 usersSchema).2

/-- A fully-populated, type-consistent payload for `usersSchema`. -/
def usersPayload : List (String × Value) :=
  [("name", Value.Text "ada"), ("age", Value.Integer 36),
   ("score", Value.Real 77), ("active", Value.Integer 1)]

/-- State `stU` after one successful `create_model`. -/
def stU1 : DbState := (create_model stU "users" usersPayload).2

/-- A one-Boolean-field schema. -/
def flagSchema : Schema :=
  { name := "flags", fields := [("flag", FieldType.Boolean)] }

/-- State `st0` after `define_schema(flagSchema)`. -/
def stF : DbState := (define_schema st0 flagSchema).2

/-- State `stF` after `create_model` storing the integer `2^31` (type-consistent
for a Boolean field: its tag is `Integer`) — accepted unchecked. -/
def stF1 : DbState :=
  (create_model stF "flags" [("flag", Value.Integer 2147483648)]).2

/-- State `stF` with one row storing an arbitrary integer `n` in the Boolean
column (the state produced by `create_model stF "flags" [("flag", n)]`). -/
def stFlagRow (n : Int) : DbState :=
  { schemas := [("flags", flagSchema)],
    tables := [("flags", { cols := [("flag", FieldType.Boolean)],
                           rows := [{ id := 1,
                                      cells := [("flag", Value.Integer n)] }] })] }

/-- A schema whose name is not a valid SQLite identifier: provisioning its
table fails, after the registry insert already happened. -/
def badSchema : Schema := { name := "bad name", fields := [] }

/-! ## Spec-side predicates used to state hypotheses -/

/-- Every declared field of `S` is mapped by `M` to a value of the matching
tag ("fully-populated, type-consistent"). -/
def coversTyped (S : Schema) (M : List (String × Value)) : Bool :=
  S.fields.all (fun p =>
    match lookupA M p.1 with
    | some v => tagMatches p.2 v
    | none => false)

/-- Every Boolean field's integer payload in `M` fits in `i32` (the range
the read path's checked decoder accepts). -/
def boolsFit (S : Schema) (M : List (String × Value)) : Bool :=
  S.fields.all (fun p =>
    match p.2, lookupA M p.1 with
    | FieldType.Boolean, some (Value.Integer n) => fitsI32 n
    | _, _ => true)

/-! ## Association-list and engine lemmas -/

/-- Looking up the key just inserted by `HashMap::insert` yields the new
value. -/
theorem lookupA_insertA_self {α : Type} (l : List (String × α)) (k : String)
    (v : α) : lookupA (insertA l k v) k = some v := by
  simp [insertA, lookupA]

/-- Inserting one key does not disturb lookups of other keys. -/
theorem lookupA_insertA_ne {α : Type} (l : List (String × α)) (k k' : String)
    (v : α) (h : k' ≠ k) : lookupA (insertA l k v) k' = lookupA l k' := by
  simp [insertA, lookupA, Ne.symm h]

/-- A key absent from the key list looks up to `none`. -/
theorem lookupA_eq_none_of_not_mem {α : Type} (l : List (String × α))
    (k : String) (h : k ∉ l.map Prod.fst) : lookupA l k = none := by
  induction l with
  | nil => rfl
  | cons p t ih =>
    simp only [List.map_cons, List.mem_cons] at h
    push_neg at h
    obtain ⟨pk, pv⟩ := p
    simp only [lookupA, ih h.2, if_neg (Ne.symm h.1)]

/-- With duplicate-free keys, membership determines the lookup result. -/
theorem lookupA_eq_some_of_mem {α : Type} (l : List (String × α)) (k : String)
    (v : α) (hnd : (l.map Prod.fst).Nodup) (hm : (k, v) ∈ l) :
    lookupA l k = some v := by
  induction l with
  | nil => simp at hm
  | cons p t ih =>
    obtain ⟨pk, pv⟩ := p
    simp only [List.map_cons, List.nodup_cons] at hnd
    rcases List.mem_cons.mp hm with heq | hmt
    · cases heq
      simp [lookupA]
    · have hk : pk ≠ k := by
        intro he
        subst he
        exact hnd.1 (List.mem_map.mpr ⟨(pk, v), hmt, rfl⟩)
      simp only [lookupA, if_neg hk]
      exact ih hnd.2 hmt

/-- A present key looks up to `some`. -/
theorem lookupA_isSome_of_mem {α : Type} (l : List (String × α)) (k : String)
    (v : α) (hm : (k, v) ∈ l) : (lookupA l k).isSome := by
  induction l with
  | nil => simp at hm
  | cons p t ih =>
    obtain ⟨pk, pv⟩ := p
    rcases List.mem_cons.mp hm with heq | hmt
    · cases heq; simp [lookupA]
    · by_cases hk : pk = k
      · simp [lookupA, hk]
      · simp only [lookupA, if_neg hk]
        exact ih hmt

/-- Looking up through `storeCell`-converted cells is lookup followed by the
column's affinity conversion. -/
theorem lookupA_map_storeCell (cols : List (String × FieldType))
    (l : List (String × Value)) (k : String) :
    lookupA (l.map (storeCell cols)) k =
      (lookupA l k).map (storeVal cols k) := by
  induction l with
  | nil => rfl
  | cons p t ih =>
    obtain ⟨pk, pv⟩ := p
    by_cases hk : pk = k
    · subst hk
      simp [storeCell, lookupA]
    · simpa [storeCell, lookupA, hk] using ih

/-- Zipping the two projections of a pair list rebuilds the list. -/
theorem zip_fst_snd {α β : Type} (l : List (α × β)) :
    List.zip (l.map Prod.fst) (l.map Prod.snd) = l := by
  induction l with
  | nil => rfl
  | cons p t ih => simp [List.zip, ih]

/-- A type-consistent value is stored unchanged by the column's affinity. -/
theorem applyAffinity_id (ft : FieldType) (v : Value)
    (h : tagMatches ft v = true) : applyAffinity ft v = v := by
  cases ft <;> cases v <;> simp_all [tagMatches, applyAffinity]

/-- A type-consistent value is never SQL NULL. -/
theorem tagMatches_not_null (ft : FieldType) (v : Value)
    (h : tagMatches ft v = true) : isNullV v = false := by
  cases ft <;> cases v <;> simp_all [tagMatches, isNullV]

/-- The payload-validation loop succeeds and returns the projections of the
payload when every payload key is declared. -/
theorem checkFields_ok (schema : Schema) (data : List (String × Value))
    (h : ∀ p ∈ data, (lookupA schema.fields p.1).isSome) :
    checkFields schema data = .ok (data.map Prod.fst, data.map Prod.snd) := by
  induction data with
  | nil => rfl
  | cons p t ih =>
    obtain ⟨f, v⟩ := p
    have hf : (lookupA schema.fields f).isSome := h (f, v) (List.mem_cons_self _ _)
    have ht : checkFields schema t = .ok (t.map Prod.fst, t.map Prod.snd) :=
      ih (fun q hq => h q (List.mem_cons_of_mem _ hq))
    simp [checkFields, Option.isNone_iff_eq_none, ht,
      Option.isSome_iff_exists.mp hf]
    intro hnone
    rw [hnone] at hf
    simp at hf

/-- The payload-validation loop fails with the code's single validation error
value as soon as any payload key is undeclared. -/
theorem checkFields_err (schema : Schema) (data : List (String × Value))
    (h : ∃ p ∈ data, lookupA schema.fields p.1 = none) :
    checkFields schema data = .error .executeReturnedResults := by
  induction data with
  | nil => simp at h
  | cons p t ih =>
    obtain ⟨f, v⟩ := p
    cases hf : lookupA schema.fields f with
    | none => simp [checkFields, hf]
    | some ft =>
      have ht : ∃ p ∈ t, lookupA schema.fields p.1 = none := by
        obtain ⟨q, hq, hqnone⟩ := h
        rcases List.mem_cons.mp hq with heq | hmt
        · subst heq; rw [hf] at hqnone; cases hqnone
        · exact ⟨q, hmt, hqnone⟩
      simp [checkFields, hf, ih ht]

/-- Any initial accumulator bounds the rowid fold from below. -/
theorem le_foldl_max (rows : List Row) (a : Int) :
    a ≤ rows.foldl (fun b r => max b r.id) a := by
  induction rows generalizing a with
  | nil => exact le_refl a
  | cons r t ih => exact le_trans (le_max_left a r.id) (ih (max a r.id))

/-- Every stored rowid is bounded by the rowid fold. -/
theorem mem_le_foldl_max (rows : List Row) (a : Int) (r : Row) (h : r ∈ rows) :
    r.id ≤ rows.foldl (fun b r => max b r.id) a := by
  induction rows generalizing a with
  | nil => simp at h
  | cons q t ih =>
    rcases List.mem_cons.mp h with heq | hmt
    · subst heq
      exact le_trans (le_max_right a r.id) (le_foldl_max t (max a r.id))
    · exact ih hmt (a := max a q.id)

/-- The wrapping `as i32` cast is the identity on values already in the
`i32` range. -/
theorem asI32_eq_self (i : Int) (h1 : -2147483648 ≤ i) (h2 : i < 2147483648) :
    asI32 i = i := by
  unfold asI32
  omega

/-- The column-reading loop succeeds field-by-field: if every schema field's
stored cell decodes to `u`, the loop returns the schema fields mapped
through `u`. -/
theorem readFields_ok (fields : List (String × FieldType))
    (cells : List (String × Value)) (u : String → FieldType → Value)
    (h : ∀ p ∈ fields, ∃ w, lookupA cells p.1 = some w ∧
        readCell p.2 w = .ok (u p.1 p.2)) :
    readFields fields cells = .ok (fields.map (fun p => (p.1, u p.1 p.2))) := by
  induction fields with
  | nil => rfl
  | cons p t ih =>
    obtain ⟨f, ft⟩ := p
    obtain ⟨w, hw, hr⟩ := h (f, ft) (List.mem_cons_self _ _)
    have ht := ih (fun q hq => h q (List.mem_cons_of_mem _ hq))
    simp [readFields, hw, hr, ht]

/-- Overwriting a key in place changes that key's lookup (when present). -/
theorem lookupA_setA_self {α : Type} (l : List (String × α)) (k : String)
    (v : α) : lookupA (setA l k v) k = (lookupA l k).map (fun _ => v) := by
  induction l with
  | nil => rfl
  | cons p t ih =>
    obtain ⟨pk, pv⟩ := p
    simp only [setA, List.map_cons] at ih ⊢
    by_cases hk : pk = k
    · subst hk
      rw [show ((if (pk, pv).1 = pk then (pk, v) else (pk, pv))) = (pk, v) from
        if_pos rfl]
      simp [lookupA, ih]
    · rw [show ((if (pk, pv).1 = k then (k, v) else (pk, pv))) = (pk, pv) from
        if_neg hk]
      simp [lookupA, hk, ih]

/-- Overwriting a key in place leaves other keys' lookups unchanged. -/
theorem lookupA_setA_ne {α : Type} (l : List (String × α)) (k k' : String)
    (v : α) (h : k' ≠ k) : lookupA (setA l k v) k' = lookupA l k' := by
  induction l with
  | nil => rfl
  | cons p t ih =>
    obtain ⟨pk, pv⟩ := p
    simp only [setA, List.map_cons] at ih ⊢
    by_cases hk : pk = k
    · subst hk
      rw [show ((if (pk, pv).1 = pk then (pk, v) else (pk, pv))) = (pk, v) from
        if_pos rfl]
      simp only [lookupA, if_neg (fun he : pk = k' => h he.symm), ih]
    · rw [show ((if (pk, pv).1 = k then (k, v) else (pk, pv))) = (pk, pv) from
        if_neg hk]
      by_cases hk' : pk = k'
      · simp [lookupA, hk', ih]
      · simp [lookupA, hk', ih]


/-- Function `setA` never changes which keys are present. -/
theorem lookupA_setA_isSome {α : Type} (l : List (String × α)) (k k' : String)
    (v : α) : (lookupA (setA l k v) k').isSome = (lookupA l k').isSome := by
  by_cases hk : k' = k
  · subst hk
    rw [lookupA_setA_self]
    cases lookupA l k' <;> rfl
  · rw [lookupA_setA_ne _ _ _ _ hk]

/-- Frame property of the `UPDATE ... SET` assignment fold on one row whose
cells cover the assigned keys: an assigned key reads back as its assigned
value converted by its column's affinity; every other key is untouched. -/
theorem lookupA_applySets (data : List (String × Value))
    (cells : List (String × Value)) (cols : List (String × FieldType))
    (f : String)
    (hnd : (data.map Prod.fst).Nodup)
    (hcover : ∀ p ∈ data, (lookupA cells p.1).isSome) :
    lookupA (applySets cells cols data) f =
      match lookupA data f with
      | some v => some (storeVal cols f v)
      | none => lookupA cells f := by
  induction data generalizing cells with
  | nil => rfl
  | cons p t ih =>
    obtain ⟨g, v⟩ := p
    simp only [List.map_cons, List.nodup_cons] at hnd
    have hg : (lookupA cells g).isSome := hcover (g, v) (List.mem_cons_self _ _)
    have hcov' : ∀ q ∈ t,
        (lookupA (setA cells g (storeVal cols g v)) q.1).isSome := by
      intro q hq
      rw [lookupA_setA_isSome]
      exact hcover q (List.mem_cons_of_mem _ hq)
    have hrec := ih (setA cells g (storeVal cols g v)) hnd.2 hcov'
    by_cases hf : g = f
    · subst hf
      have htg : lookupA t g = none := lookupA_eq_none_of_not_mem t g hnd.1
      obtain ⟨w, hw⟩ := Option.isSome_iff_exists.mp hg
      simp only [applySets, hrec, htg, lookupA_setA_self, hw, lookupA, if_pos rfl]
      rfl
    · have hne : f ≠ g := fun he => hf he.symm
      simp only [applySets, hrec, lookupA, if_neg hf,
        lookupA_setA_ne _ _ _ _ hne]

/-- A successful lookup comes from an entry of the list. -/
theorem mem_of_lookupA_eq_some {α : Type} (l : List (String × α)) (k : String)
    (v : α) (h : lookupA l k = some v) : (k, v) ∈ l := by
  induction l with
  | nil => cases h
  | cons p t ih =>
    obtain ⟨pk, pv⟩ := p
    by_cases hk : pk = k
    · subst hk
      rw [lookupA, if_pos rfl] at h
      cases h
      exact List.mem_cons_self _ _
    · rw [lookupA, if_neg hk] at h
      exact List.mem_cons_of_mem _ (ih h)

/-- Lookup through a key-preserving value transformation. -/
theorem lookupA_map_pair {α β : Type} (l : List (String × α))
    (g : String → α → β) (k : String) :
    lookupA (l.map (fun p => (p.1, g p.1 p.2))) k = (lookupA l k).map (g k) := by
  induction l with
  | nil => rfl
  | cons p t ih =>
    obtain ⟨pk, pv⟩ := p
    by_cases hk : pk = k
    · subst hk
      simp [lookupA]
    · simpa [lookupA, hk] using ih

/-- A type-consistent stored value decodes to its Boolean-normalized form
(lines 117-122): the identity except on Boolean fields, whose in-`i32`
integer collapses to 0 or 1. -/
theorem readCell_ok (ft : FieldType) (v : Value)
    (h : tagMatches ft v = true)
    (hb : ∀ n, ft = FieldType.Boolean → v = Value.Integer n → fitsI32 n = true) :
    readCell ft v = .ok (boolNorm ft v) := by
  cases ft <;> cases v <;>
    simp_all [tagMatches, readCell, boolNorm]

/-! ## Claim theorems -/

/-- C2 — For every schema name never passed to `define_schema`, each of
`create_model`, `get_model`, `get_all_models`, `update_model` and
`delete_model` fails (with the single validation error value the code uses,
`rusqlite::Error::ExecuteReturnedResults`, produced on the unknown-schema
path at lines 67-68, 99-100, 135-136, 173-174, 208-209) and leaves the
registry and the backing storage completely unchanged: the three mutating
operations return the state unmodified, and the two read operations are
SELECT-only and error out before preparing any statement. -/
theorem unknown_schema_rejected (st : DbState) (name : String)
    (h : lookupA st.schemas name = none) :
    (∀ data, create_model st name data =
        (.error .executeReturnedResults, st)) ∧
    (∀ id, get_model st name id = .error .executeReturnedResults) ∧
    get_all_models st name = .error .executeReturnedResults ∧
    (∀ id data, update_model st name id data =
        (.error .executeReturnedResults, st)) ∧
    (∀ id, delete_model st name id = (.error .executeReturnedResults, st)) := by
  refine ⟨fun data => ?_, fun id => ?_, ?_, fun id data => ?_, fun id => ?_⟩ <;>
    simp [create_model, get_model, get_all_models, update_model,
      delete_model, h]

/-- Witness for `unknown_schema_rejected` at the concrete state `stU` and
the never-defined name `"ghost"`. -/
theorem unknown_schema_rejected_witness :
    lookupA stU.schemas "ghost" = none ∧
    create_model stU "ghost" usersPayload =
      (.error .executeReturnedResults, stU) ∧
    get_model stU "ghost" 1 = .error .executeReturnedResults ∧
    get_all_models stU "ghost" = .error .executeReturnedResults ∧
    update_model stU "ghost" 1 usersPayload =
      (.error .executeReturnedResults, stU) ∧
    delete_model stU "ghost" 1 = (.error .executeReturnedResults, stU) := by
  have h : lookupA stU.schemas "ghost" = none := rfl
  have hall := unknown_schema_rejected stU "ghost" h
  exact ⟨h, hall.1 usersPayload, hall.2.1 1, hall.2.2.1,
    hall.2.2.2.1 1 usersPayload, hall.2.2.2.2 1⟩

/-- C3 — For every registered schema and every payload containing at
least one undeclared field name, `create_model` and `update_model` fail
(with the code's single validation error value, which the spec's taxonomy
labels `UnknownField`; lines 74-83 and 179-187) before executing any
statement, so no row is inserted and no column of any row is changed: the
state is returned unmodified. -/
theorem unknown_field_rejected (st : DbState) (name : String) (S : Schema)
    (id : Int) (data : List (String × Value))
    (hreg : lookupA st.schemas name = some S)
    (hbad : ∃ p ∈ data, lookupA S.fields p.1 = none) :
    create_model st name data = (.error .executeReturnedResults, st) ∧
    update_model st name id data = (.error .executeReturnedResults, st) := by
  constructor <;>
    simp [create_model, update_model, hreg, checkFields_err S data hbad]

/-- Witness for `unknown_field_rejected`: the field `"bogus"` is not
declared by `usersSchema`. -/
theorem unknown_field_rejected_witness :
    lookupA stU.schemas "users" = some usersSchema ∧
    lookupA usersSchema.fields "bogus" = none ∧
    create_model stU "users" [("bogus", Value.Integer 1)] =
      (.error .executeReturnedResults, stU) ∧
    update_model stU "users" 1 [("bogus", Value.Integer 1)] =
      (.error .executeReturnedResults, stU) := by
  have hreg : lookupA stU.schemas "users" = some usersSchema := rfl
  have hb : lookupA usersSchema.fields "bogus" = none := rfl
  have hbad : ∃ p ∈ [(("bogus" : String), Value.Integer 1)],
      lookupA usersSchema.fields p.1 = none :=
    ⟨("bogus", Value.Integer 1), List.mem_cons_self _ _, hb⟩
  have happ := unknown_field_rejected stU "users" usersSchema 1
    [("bogus", Value.Integer 1)] hreg hbad
  exact ⟨hreg, hb, happ.1, happ.2⟩

/-- C4, counterexample — The claim says an unknown-schema failure and an
unknown-field failure are distinguishable error values.  They are not: at
the concrete state `stU`, `create_model` on the undefined schema `"nosuch"`
and `create_model` on the defined schema `"users"` with the undeclared
field `"bogus"` return the IDENTICAL error value
(`rusqlite::Error::ExecuteReturnedResults`, lines 68 and 77). -/
theorem error_kinds_not_distinguishable :
    lookupA stU.schemas "nosuch" = none ∧
    lookupA stU.schemas "users" = some usersSchema ∧
    (create_model stU "nosuch" [("name", Value.Text "a")]).1 =
      Except.error DbError.executeReturnedResults ∧
    (create_model stU "users" [("bogus", Value.Text "a")]).1 =
      Except.error DbError.executeReturnedResults ∧
    (create_model stU "nosuch" [("name", Value.Text "a")]).1 =
      (create_model stU "users" [("bogus", Value.Text "a")]).1 :=
  ⟨rfl, rfl, rfl, rfl, rfl⟩

/-- C4, amended — Every failing validation path returns a typed
`rusqlite::Error` result, but the unknown-schema and unknown-field failures
of the CRUD operations share the single error value
`ExecuteReturnedResults`, so a caller cannot distinguish those two kinds by
the error value. -/
theorem validation_errors_share_value (st st2 : DbState) (n n2 : String)
    (d d2 : List (String × Value)) (S : Schema)
    (h1 : lookupA st.schemas n = none)
    (h2 : lookupA st2.schemas n2 = some S)
    (h3 : ∃ p ∈ d2, lookupA S.fields p.1 = none) :
    (create_model st n d).1 = .error .executeReturnedResults ∧
    (create_model st2 n2 d2).1 = .error .executeReturnedResults ∧
    (create_model st n d).1 = (create_model st2 n2 d2).1 := by
  have ha : create_model st n d = (.error .executeReturnedResults, st) := by
    simp [create_model, h1]
  have hb : create_model st2 n2 d2 = (.error .executeReturnedResults, st2) := by
    simp [create_model, h2, checkFields_err S d2 h3]
  rw [ha, hb]
  exact ⟨rfl, rfl, rfl⟩

/-- Witness for `validation_errors_share_value` at the state `stU`. -/
theorem validation_errors_share_value_witness :
    lookupA stU.schemas "nosuch" = none ∧
    lookupA stU.schemas "users" = some usersSchema ∧
    (create_model stU "nosuch" [("age", Value.Integer 2)]).1 =
      .error .executeReturnedResults ∧
    (create_model stU "users" [("mystery", Value.Integer 2)]).1 =
      .error .executeReturnedResults ∧
    (create_model stU "nosuch" [("age", Value.Integer 2)]).1 =
      (create_model stU "users" [("mystery", Value.Integer 2)]).1 := by
  have h1 : lookupA stU.schemas "nosuch" = none := rfl
  have h2 : lookupA stU.schemas "users" = some usersSchema := rfl
  have h3 : ∃ p ∈ [(("mystery" : String), Value.Integer 2)],
      lookupA usersSchema.fields p.1 = none :=
    ⟨("mystery", Value.Integer 2), List.mem_cons_self _ _, rfl⟩
  have happ := validation_errors_share_value stU stU "nosuch" "users"
    [("age", Value.Integer 2)] [("mystery", Value.Integer 2)] usersSchema h1 h2 h3
  exact ⟨h1, h2, happ.1, happ.2.1, happ.2.2⟩

/-- C8 — For every registered schema and every identifier, `update_model`
with an empty field mapping returns `Ok(false)` from the early return at
lines 192-194, before any statement is built or executed: the state is
returned untouched. -/
theorem empty_update_no_op (st : DbState) (name : String) (S : Schema)
    (id : Int) (hreg : lookupA st.schemas name = some S) :
    update_model st name id [] = (.ok false, st) := by
  simp [update_model, hreg, checkFields]

/-- Witness for `empty_update_no_op` at the concrete state `stU1` (one
stored row) and at an identifier with no row. -/
theorem empty_update_no_op_witness :
    lookupA stU1.schemas "users" = some usersSchema ∧
    update_model stU1 "users" 1 [] = (.ok false, stU1) ∧
    update_model stU1 "users" 999 [] = (.ok false, stU1) := by
  have hreg : lookupA stU1.schemas "users" = some usersSchema := rfl
  exact ⟨hreg, empty_update_no_op stU1 "users" usersSchema 1 hreg,
    empty_update_no_op stU1 "users" usersSchema 999 hreg⟩

/-- C10 — `define_schema` inserts the schema into the registry (line 42,
overwriting any prior binding of that name) BEFORE executing the
`CREATE TABLE` statement, so after every call — `Ok` or `Err` — the schema
is registered under its name and resolvable by the CRUD operations; the
concrete `badSchema` (whose name cannot appear in valid statement text)
exhibits the `Err` case: provisioning fails yet the schema is registered. -/
theorem define_schema_registers_before_storage (st : DbState)
    (schema : Schema) :
    ((define_schema st schema).2).schemas =
      insertA st.schemas schema.name schema ∧
    lookupA ((define_schema st schema).2).schemas schema.name = some schema ∧
    (define_schema st0 badSchema).1 =
      .error (.sqliteFailure "syntax error in CREATE TABLE") ∧
    lookupA ((define_schema st0 badSchema).2).schemas "bad name" =
      some badSchema := by
  refine ⟨?_, ?_, rfl, rfl⟩
  · cases h : execCreateTable st.tables schema <;>
      simp [define_schema, h]
  · cases h : execCreateTable st.tables schema <;>
      simp [define_schema, h, insertA, lookupA]

/-- C9 — For every registered schema, `create_model` with an empty field
mapping builds the statement `INSERT INTO <name> () VALUES ()` (lines
85-90 with empty column and placeholder lists), which the storage engine
rejects as a parse error (SQLite does not accept an empty column list), so
no row is ever inserted, no identifier returned, and the state is unchanged
— in contrast to `update_model`, whose empty mapping is a successful no-op. -/
theorem empty_create_rejected (st : DbState) (name : String) (S : Schema)
    (hreg : lookupA st.schemas name = some S) :
    insertSql name [] = "INSERT INTO " ++ name ++ " () VALUES ()" ∧
    create_model st name [] =
      (.error (.sqliteFailure "syntax error in INSERT"), st) := by
  constructor
  · unfold insertSql
    rw [show String.intercalate ", " [] = "" from rfl]
    rw [show (List.map (fun _ => "?") ([] : List String)) = [] from rfl,
      show String.intercalate ", " [] = "" from rfl]
    simp [String.append_assoc]
  · simp [create_model, hreg, checkFields, execInsert]

/-- Witness for `empty_create_rejected` at the concrete state `stU`. -/
theorem empty_create_rejected_witness :
    lookupA stU.schemas "users" = some usersSchema ∧
    insertSql "users" [] = "INSERT INTO users () VALUES ()" ∧
    create_model stU "users" [] =
      (.error (.sqliteFailure "syntax error in INSERT"), stU) := by
  have hreg : lookupA stU.schemas "users" = some usersSchema := rfl
  have happ := empty_create_rejected stU "users" usersSchema hreg
  exact ⟨hreg, by rw [happ.1]; rfl, happ.2⟩

/-- C7, counterexample — The claim says any non-zero stored integer in a
Boolean field is returned as the integer 1.  But the read path decodes the
column through `rusqlite`'s checked `i32` decoder (`row.get::<_, i32>`,
lines 121 and 159): at the reachable state `stF1`, whose Boolean column
stores the non-zero integer `2^31` (accepted unchecked by `create_model`),
`get_model` and `get_all_models` fail with the out-of-range conversion
error instead of returning the field as 1. -/
theorem bool_read_out_of_range_fails :
    create_model stF "flags" [("flag", Value.Integer 2147483648)] =
      (.ok 1, stF1) ∧
    lookupA stF1.tables "flags" =
      some { cols := [("flag", FieldType.Boolean)],
             rows := [{ id := 1,
                        cells := [("flag", Value.Integer 2147483648)] }] } ∧
    get_model stF1 "flags" 1 = .error .fromSqlConversionFailure ∧
    get_all_models stF1 "flags" = .error .fromSqlConversionFailure :=
  ⟨rfl, rfl, rfl, rfl⟩

/-- C7, amended — A Boolean field's stored integer is normalized on read
to exactly 0 or 1 — any non-zero stored value reads back as 1 and a stored 0
as 0 — PROVIDED the stored integer fits in `i32`; a stored integer outside
that range instead makes `get_model`/`get_all_models` fail with the checked
decoder's out-of-range error (see `bool_read_out_of_range_fails`). -/
theorem bool_read_normalizes_in_range (n : Int)
    (h : -2147483648 ≤ n ∧ n < 2147483648) :
    get_model (stFlagRow n) "flags" 1 =
      .ok (some { id := some 1,
                  data := [("flag", Value.Integer (if n = 0 then 0 else 1))] }) ∧
    get_all_models (stFlagRow n) "flags" =
      .ok [{ id := some 1,
             data := [("flag", Value.Integer (if n = 0 then 0 else 1))] }] := by
  have hfit : fitsI32 n = true := by
    simpa [fitsI32] using h
  constructor <;>
    · simp [get_model, get_all_models, stFlagRow, flagSchema, lookupA,
        readFields, readAllRows, readCell, fitsI32, hfit]
      rw [if_pos h]

/-- Witness for `bool_read_normalizes_in_range` at the stored values 5
(non-zero, reads back as exactly 1) and 0 (reads back as 0). -/
theorem bool_read_normalizes_in_range_witness :
    (-2147483648 ≤ (5 : Int) ∧ (5 : Int) < 2147483648) ∧
    get_model (stFlagRow 5) "flags" 1 =
      .ok (some { id := some 1, data := [("flag", Value.Integer 1)] }) ∧
    get_all_models (stFlagRow 0) "flags" =
      .ok [{ id := some 1, data := [("flag", Value.Integer 0)] }] := by
  refine ⟨by decide, ?_, ?_⟩
  · simpa using (bool_read_normalizes_in_range 5 (by decide)).1
  · simpa using (bool_read_normalizes_in_range 0 (by decide)).2

/-- C1, counterexample — The claim quantifies over every fully-populated,
type-consistent mapping `M`; but for the Boolean field `"flag"` the
type-consistent payload `Integer (2^31)` (its tag is `Integer`, exactly what
a Boolean field carries) is stored unchecked by `create_model`, and
`get_model` on the returned identifier then fails with the checked `i32`
decoder's out-of-range error instead of returning the record. -/
theorem round_trip_fails_on_big_bool :
    coversTyped flagSchema [("flag", Value.Integer 2147483648)] = true ∧
    create_model stF "flags" [("flag", Value.Integer 2147483648)] =
      (.ok 1, stF1) ∧
    get_model stF1 "flags" 1 = .error .fromSqlConversionFailure :=
  ⟨rfl, rfl, rfl⟩

/-- C6 — For a registered schema, a non-empty type-consistent mapping of
declared fields, and any identifier, `update_model` (lines 172-204) rewrites
exactly the supplied fields of the addressed row to the supplied values
(each unsupplied cell of that row, and every other row, is untouched), and
returns `Ok(rows_affected > 0)`, i.e. `true` iff a row with that identifier
existed. -/
theorem update_changes_only_supplied_fields (st : DbState) (name : String)
    (S : Schema) (T : Table) (id : Int) (data : List (String × Value))
    (hreg : lookupA st.schemas name = some S)
    (htab : lookupA st.tables name = some T)
    (hcols : T.cols = S.fields)
    (hne : data ≠ [])
    (hnd : (data.map Prod.fst).Nodup)
    (hkeys : ∀ p ∈ data, ∃ ft, lookupA S.fields p.1 = some ft ∧
        tagMatches ft p.2 = true)
    (hwf : ∀ r ∈ T.rows, ∀ p ∈ data, (lookupA r.cells p.1).isSome) :
    ∃ b, update_model st name id data =
        (.ok b, { st with tables := (insertA st.tables name
          { T with rows := T.rows.map (fun r =>
              if r.id = id then
                { r with cells := applySets r.cells T.cols data }
              else r) }) }) ∧
      (b = true ↔ ∃ r ∈ T.rows, r.id = id) ∧
      ∀ r ∈ T.rows, r.id = id → ∀ f,
        lookupA (applySets r.cells T.cols data) f =
          match lookupA data f with
          | some v => some v
          | none => lookupA r.cells f := by
  have hkeysSome : ∀ p ∈ data, (lookupA S.fields p.1).isSome := by
    intro p hp
    obtain ⟨ft, hft, _⟩ := hkeys p hp
    simp [hft]
  have hchk := checkFields_ok S data hkeysSome
  have hstore : ∀ p ∈ data, storeVal T.cols p.1 p.2 = p.2 := by
    intro p hp
    obtain ⟨ft, hft, htm⟩ := hkeys p hp
    simp [storeVal, hcols, hft, applyAffinity_id ft p.2 htm]
  have hallcols : (data.map Prod.fst).all
      (fun f => (lookupA T.cols f).isSome) = true := by
    rw [List.all_eq_true]
    intro f hf
    obtain ⟨p, hp, hpf⟩ := List.mem_map.mp hf
    subst hpf
    obtain ⟨ft, hft, _⟩ := hkeys p hp
    simp [hcols, hft]
  have hzip : List.zip (data.map Prod.fst) (data.map Prod.snd) = data :=
    zip_fst_snd data
  have hnull : (data.any fun p => isNullV (storeVal T.cols p.1 p.2)) = false := by
    rw [List.any_eq_false]
    intro p hp
    obtain ⟨ft, hft, htm⟩ := hkeys p hp
    rw [hstore p hp]
    simp [tagMatches_not_null ft p.2 htm]
  have hnonempty : (data.map Prod.fst).isEmpty = false := by
    cases data with
    | nil => cases hne rfl
    | cons q t => rfl
  refine ⟨decide (0 < T.rows.countP (fun r => r.id = id)), ?_, ?_, ?_⟩
  · simp only [update_model, hreg, hchk, hnonempty, execUpdate, htab,
      hallcols, hzip, hnull, Bool.false_eq_true, if_false, not_true,
      Bool.true_eq_false]
    simp [hnull]
  · simp only [decide_eq_true_iff, List.countP_pos_iff, decide_eq_true_eq]
  · intro r hr hrid f
    rw [lookupA_applySets data r.cells T.cols f hnd (hwf r hr)]
    cases hdf : lookupA data f with
    | none => rfl
    | some v =>
      have hmem : (f, v) ∈ data := mem_of_lookupA_eq_some data f v hdf
      simp [hstore (f, v) hmem]

/-- Witness for `update_changes_only_supplied_fields`: updating only
`"age"` on the one stored row of `stU1` rewrites that cell, leaves
`"name"`, `"score"`, `"active"` untouched, and returns `true`. -/
theorem update_changes_only_supplied_fields_witness :
    update_model stU1 "users" 1 [("age", Value.Integer 41)] =
      (.ok true,
       { schemas := [("users", usersSchema)],
         tables := [("users",
             { cols := usersSchema.fields,
               rows := [{ id := 1,
                          cells := [("name", Value.Text "ada"),
                                    ("age", Value.Integer 41),
                                    ("score", Value.Real 77),
                                    ("active", Value.Integer 1)] }] }),
           ("users",
             { cols := usersSchema.fields,
               rows := [{ id := 1,
                          cells := [("name", Value.Text "ada"),
                                    ("age", Value.Integer 36),
                                    ("score", Value.Real 77),
                                    ("active", Value.Integer 1)] }] }),
           ("users", { cols := usersSchema.fields, rows := [] })] }) := by
  obtain ⟨b, h1, h2, h3⟩ := update_changes_only_supplied_fields stU1 "users"
    usersSchema
    { cols := usersSchema.fields,
      rows := [{ id := 1,
                 cells := [("name", Value.Text "ada"),
                           ("age", Value.Integer 36),
                           ("score", Value.Real 77),
                           ("active", Value.Integer 1)] }] }
    1 [("age", Value.Integer 41)] rfl rfl rfl (by simp) (by simp)
    (by
      rintro p hp
      rw [List.mem_singleton] at hp
      subst hp
      exact ⟨FieldType.Integer, rfl, rfl⟩)
    (by
      rintro r hr p hp
      rw [List.mem_singleton] at hr hp
      subst hr
      subst hp
      rfl)
  have hb : b = true := h2.mpr ⟨_, List.mem_singleton_self _, rfl⟩
  subst hb
  rw [h1]
  rfl

/-- C1, amended — For every registered schema `S` with consistently
provisioned storage and every NON-EMPTY fully-populated, type-consistent
mapping `M` whose Boolean integers fit in `i32`, and whenever the rowid the
store will assign fits in `i32`, `get_model` on the identifier returned by
`create_model(S, M)` returns `Some` record whose data equals `M` up to
normalizing each Boolean field's stored integer to 0 or 1.  (The claim as
frozen fails without the `i32` conditions — see
`round_trip_fails_on_big_bool` — and its empty-`M` instance is the distinct
behavior settled by `empty_create_rejected`.) -/
theorem create_get_round_trip (st : DbState) (S : Schema) (T : Table)
    (M : List (String × Value))
    (hreg : lookupA st.schemas S.name = some S)
    (htab : lookupA st.tables S.name = some T)
    (hcols : T.cols = S.fields)
    (hndS : (S.fields.map Prod.fst).Nodup)
    (hMne : M ≠ [])
    (hkeysM : ∀ p ∈ M, (lookupA S.fields p.1).isSome)
    (hfull : coversTyped S M = true)
    (hbool : boolsFit S M = true)
    (hfresh : freshRowId T.rows < 2147483648) :
    ∃ st', create_model st S.name M = (.ok (freshRowId T.rows), st') ∧
      ∃ rec, get_model st' S.name (freshRowId T.rows) = .ok (some rec) ∧
        rec.id = some (freshRowId T.rows) ∧
        ∀ f ft, (f, ft) ∈ S.fields →
          lookupA rec.data f = (lookupA M f).map (boolNorm ft) := by
  have hchk := checkFields_ok S M hkeysM
  have hcov : ∀ f ft, (f, ft) ∈ S.fields → ∃ v, lookupA M f = some v ∧
      tagMatches ft v = true := by
    intro f ft hm
    have hx := (List.all_eq_true.mp hfull) (f, ft) hm
    simp only [coversTyped] at hx
    cases hMf : lookupA M f with
    | none => rw [hMf] at hx; simp at hx
    | some v => rw [hMf] at hx; exact ⟨v, rfl, hx⟩
  have hboolfit : ∀ f n, (f, FieldType.Boolean) ∈ S.fields →
      lookupA M f = some (Value.Integer n) → fitsI32 n = true := by
    intro f n hm hMf
    have hx := (List.all_eq_true.mp hbool) (f, FieldType.Boolean) hm
    rw [hMf] at hx
    exact hx
  have hridpos : 1 ≤ freshRowId T.rows := by
    have hfold := le_foldl_max T.rows 0
    unfold freshRowId
    omega
  have hcast : asI32 (freshRowId T.rows) = freshRowId T.rows := by
    apply asI32_eq_self
    · omega
    · exact hfresh
  have hMfieldsne : (M.map Prod.fst).isEmpty = false := by
    cases M with
    | nil => cases hMne rfl
    | cons q t => rfl
  have hallcols : (M.map Prod.fst).all
      (fun f => (lookupA T.cols f).isSome) = true := by
    rw [List.all_eq_true]
    intro f hf
    obtain ⟨p, hp, hpf⟩ := List.mem_map.mp hf
    subst hpf
    rw [hcols]
    exact hkeysM p hp
  have hstoreId : ∀ f ft v, (f, ft) ∈ S.fields → lookupA M f = some v →
      tagMatches ft v = true → storeVal T.cols f v = v := by
    intro f ft v hm hMf htm
    have hS : lookupA S.fields f = some ft :=
      lookupA_eq_some_of_mem S.fields f ft hndS hm
    simp [storeVal, hcols, hS, applyAffinity_id ft v htm]
  have hnull : (T.cols.any fun p =>
      match lookupA (M.map (storeCell T.cols)) p.1 with
      | none => true
      | some w => isNullV w) = false := by
    rw [List.any_eq_false]
    intro p hp
    obtain ⟨c, ct⟩ := p
    rw [hcols] at hp
    obtain ⟨v, hMv, htm⟩ := hcov c ct hp
    rw [lookupA_map_storeCell, hMv]
    simp only [Option.map_some']
    rw [hstoreId c ct v hp hMv htm]
    simp [tagMatches_not_null ct v htm]
  have hcreate : create_model st S.name M =
      (.ok (freshRowId T.rows),
       { st with tables := (insertA st.tables S.name
          { T with rows := T.rows ++
              [{ id := freshRowId T.rows,
                 cells := M.map (storeCell T.cols) }] }) }) := by
    simp only [create_model, hreg, hchk, execInsert, hMfieldsne, htab,
      hallcols, zip_fst_snd, hnull, hcast, Bool.false_eq_true, if_false,
      not_true, Bool.true_eq_false]
  have hfind : (T.rows ++
      [({ id := freshRowId T.rows,
          cells := M.map (storeCell T.cols) } : Row)]).find?
        (fun r => r.id = freshRowId T.rows) =
      some ({ id := freshRowId T.rows,
              cells := M.map (storeCell T.cols) } : Row) := by
    rw [List.find?_append]
    have h1 : T.rows.find? (fun r => decide (r.id = freshRowId T.rows)) = none := by
      rw [List.find?_eq_none]
      intro r hr
      have hle := mem_le_foldl_max T.rows 0 r hr
      simp only [decide_eq_true_eq]
      unfold freshRowId at *
      omega
    rw [h1]
    simp
  have hfit : fitsI32 (freshRowId T.rows) = true := by
    simp only [fitsI32, decide_eq_true_eq]
    omega
  have hread : readFields S.fields (M.map (storeCell T.cols)) =
      .ok (S.fields.map (fun p =>
        (p.1, boolNorm p.2 ((lookupA M p.1).getD Value.Null)))) := by
    apply readFields_ok S.fields (M.map (storeCell T.cols))
      (fun c t => boolNorm t ((lookupA M c).getD Value.Null))
    intro p hp
    obtain ⟨c, ct⟩ := p
    obtain ⟨v, hMv, htm⟩ := hcov c ct hp
    refine ⟨v, ?_, ?_⟩
    · rw [lookupA_map_storeCell, hMv]
      simp only [Option.map_some']
      rw [hstoreId c ct v hp hMv htm]
    · rw [hMv]
      simp only [Option.getD_some]
      exact readCell_ok ct v htm (fun n hct hv => by
        subst hct
        subst hv
        exact hboolfit c n hp hMv)
  have hall2 : (S.fields.all fun p =>
      (lookupA ({ T with rows := T.rows ++
          [{ id := freshRowId T.rows,
             cells := M.map (storeCell T.cols) }] } : Table).cols p.1).isSome)
      = true := by
    rw [List.all_eq_true]
    intro p hp
    show (lookupA T.cols p.1).isSome = true
    rw [hcols]
    exact lookupA_isSome_of_mem S.fields p.1 p.2 hp
  have hget : get_model
      ({ st with tables := (insertA st.tables S.name
          { T with rows := T.rows ++
              [{ id := freshRowId T.rows,
                 cells := M.map (storeCell T.cols) }] }) }) S.name
      (freshRowId T.rows) =
      .ok (some { id := some (freshRowId T.rows),
                  data := S.fields.map (fun p =>
                    (p.1, boolNorm p.2 ((lookupA M p.1).getD Value.Null))) }) := by
    simp only [get_model, hreg, lookupA_insertA_self, hall2, hfind, hfit,
      hread, Bool.false_eq_true, if_false, not_true, Bool.true_eq_false]
  refine ⟨_, hcreate, ⟨_, hget, rfl, ?_⟩⟩
  intro f ft hm
  have hpair := lookupA_map_pair S.fields
    (fun c t => boolNorm t ((lookupA M c).getD Value.Null)) f
  rw [hpair, lookupA_eq_some_of_mem S.fields f ft hndS hm]
  obtain ⟨v, hMv, _⟩ := hcov f ft hm
  rw [hMv]
  simp

/-- Witness for `create_get_round_trip` at the concrete state `stU` and the
fully-populated, type-consistent payload `usersPayload` (assigned rowid 1). -/
theorem create_get_round_trip_witness :
    lookupA stU.schemas usersSchema.name = some usersSchema ∧
    usersPayload ≠ [] ∧
    coversTyped usersSchema usersPayload = true ∧
    boolsFit usersSchema usersPayload = true ∧
    freshRowId ([] : List Row) < 2147483648 ∧
    (∃ st', create_model stU usersSchema.name usersPayload =
        (.ok (freshRowId ([] : List Row)), st') ∧
      ∃ rec, get_model st' usersSchema.name (freshRowId ([] : List Row)) =
          .ok (some rec) ∧
        rec.id = some (freshRowId ([] : List Row)) ∧
        ∀ f ft, (f, ft) ∈ usersSchema.fields →
          lookupA rec.data f = (lookupA usersPayload f).map (boolNorm ft)) := by
  refine ⟨rfl, by decide, rfl, rfl, by decide, ?_⟩
  exact create_get_round_trip stU usersSchema
    { cols := usersSchema.fields, rows := [] } usersPayload rfl rfl rfl
    (by decide) (by decide) (by decide) rfl rfl (by decide)
